import Mathlib

/-!
Verification of `adaptor/recurjac_adaptor.py`: the torch-to-keras model
conversion `torch2keras` and the adaptor classes `RecurJacBase`,
`FastLipAdaptor`, `RecurJacAdaptor`, `SpectralAdaptor`, `FastLinAdaptor`
with their `verify` / `calc_radius` methods.

Numbers that the Python code manipulates as floats are embedded as
rationals (ℚ); the mathematical tanh used by `nn.Tanh` and by the keras
`'tanh'` activation is kept abstract as a function parameter `tanhFn`,
since both sides apply the very same function.  The external
`recurjac` library (`compute_bounds`, `compute_bounds_integral`,
`spectral_bound`, and the weight extraction `get_weights_list`) is not
part of this repository's sources and is represented by an `Oracle` of
uninterpreted functions; every call the wrapper makes to it is recorded
in a trace of events.
-/

namespace VeriGauge

/-! ## Torch and keras layer graphs -/

/-- A layer of the torch sequential model, as `torch2keras` pattern-matches
on it: `Flatten`, `nn.Linear` (with its weight matrix, stored torch-style
as `out_features` rows of `in_features` entries, and its bias),
`nn.ReLU`, `nn.Tanh`, `nn.LeakyReLU` (with `negative_slope`), `nn.Dropout`,
and `other` standing for a layer of any type not handled
(the `else: raise NotImplementedError` branch). -/
inductive TLayer
  | flatten
  | linear (in_features out_features : ℕ) (weight : List (List ℚ)) (bias : List ℚ)
  | relu
  | tanh
  | leakyReLU (negative_slope : ℚ)
  | dropout
  | other
deriving DecidableEq

/-- A layer of the keras sequential model `torch2keras` builds:
`keras.layers.Flatten`, `keras.layers.Dense` (kernel stored keras-style as
`in` rows of `units` entries, set to the transpose of the torch weight),
`keras.layers.Activation` (by name), `keras.layers.LeakyReLU` (with alpha).
The `name=...` labels given to keras layers are cosmetic and not modelled. -/
inductive KLayer
  | flatten
  | dense (units : ℕ) (kernel : List (List ℚ)) (bias : List ℚ)
  | activation (name : String)
  | leakyReLU (alpha : ℚ)
deriving DecidableEq

/-- The two ways `torch2keras` fails: `raise NotImplementedError` on an
unsupported layer, and the failure of `assert len(activation) == 1`. -/
inductive ConvErr
  | notImplemented
  | assertionError
deriving DecidableEq

/-- Entry `w[r][c]` of a list-of-lists matrix, 0 outside its extent. -/
def entryD (w : List (List ℚ)) (r c : ℕ) : ℚ := (w.getD r []).getD c 0

/-- `layer.weight.t()`: the transpose of a torch weight tensor of shape
`(rows, cols)` (for `nn.Linear`, `rows = out_features`, `cols = in_features`),
as a `cols × rows` list of lists. -/
def transposeTensor (w : List (List ℚ)) (rows cols : ℕ) : List (List ℚ) :=
  (List.range cols).map fun i => (List.range rows).map fun j => entryD w j i

/-- The loop body of `torch2keras`: walks the torch layers, appending the
keras translation of each to `ans`, recording each activation kind in
`acts` and the last LeakyReLU slope in `p`, raising `NotImplementedError`
on an unsupported layer.  Dropout layers are skipped ("ignore dropout layer
since we only use the model for evaluation here"). -/
def t2kGo : List TLayer → List KLayer → List String → Option ℚ →
    Except ConvErr (List KLayer × List String × Option ℚ)
  | [], ans, acts, p => .ok (ans, acts, p)
  | .flatten :: rest, ans, acts, p =>
      t2kGo rest (ans ++ [.flatten]) acts p
  | .linear i o w b :: rest, ans, acts, p =>
      t2kGo rest (ans ++ [.dense o (transposeTensor w o i) b]) acts p
  | .relu :: rest, ans, acts, p =>
      t2kGo rest (ans ++ [.activation "relu"]) (acts ++ ["relu"]) p
  | .tanh :: rest, ans, acts, p =>
      t2kGo rest (ans ++ [.activation "tanh"]) (acts ++ ["tanh"]) p
  | .leakyReLU s :: rest, ans, acts, p =>
      t2kGo rest (ans ++ [.leakyReLU s]) (acts ++ ["leaky"]) (some s)
  | .dropout :: rest, ans, acts, p =>
      t2kGo rest ans acts p
  | .other :: _, _, _, _ => .error .notImplemented

/-- `torch2keras(dataset, model)`: the loop above, then
`activation = list(set(activation)); assert len(activation) == 1`, returning
the keras model, the one activation kind and the activation parameter.
(`dataset` only fixes the keras `input_shape`, which is cosmetic here.) -/
def torch2keras (model : List TLayer) :
    Except ConvErr (List KLayer × String × Option ℚ) :=
  match t2kGo model [] [] none with
  | .error e => .error e
  | .ok (ans, acts, p) =>
      let a := acts.dedup
      if a.length = 1 then .ok (ans, a.headD "", p) else .error .assertionError

/-- The keras layers a single torch layer contributes (none for dropout). -/
def convLayer : TLayer → List KLayer
  | .flatten => [.flatten]
  | .linear i o w b => [.dense o (transposeTensor w o i) b]
  | .relu => [.activation "relu"]
  | .tanh => [.activation "tanh"]
  | .leakyReLU s => [.leakyReLU s]
  | .dropout => []
  | .other => []

/-- All keras layers of a torch model, in order. -/
def convAll : List TLayer → List KLayer
  | [] => []
  | l :: rest => convLayer l ++ convAll rest

/-- The activation-kind strings the conversion loop accumulates. -/
def activKinds : List TLayer → List String
  | [] => []
  | .relu :: rest => "relu" :: activKinds rest
  | .tanh :: rest => "tanh" :: activKinds rest
  | .leakyReLU _ :: rest => "leaky" :: activKinds rest
  | _ :: rest => activKinds rest

/-- The `activation_param` the conversion loop accumulates: the slope of
the last LeakyReLU layer, if any. -/
def foldParam (p : Option ℚ) : List TLayer → Option ℚ
  | [] => p
  | .leakyReLU s :: rest => foldParam (some s) rest
  | _ :: rest => foldParam p rest

/-! ## Evaluation semantics of both models -/

/-- Dot product of two rational vectors (truncating at the shorter). -/
def dot (xs ys : List ℚ) : ℚ := (List.zipWith (fun a b => a * b) xs ys).sum

/-- The ReLU function. -/
def reluFn (x : ℚ) : ℚ := max 0 x

/-- The scalar function of a keras `Activation(name)` layer; `tanhFn` is
the abstract mathematical tanh. -/
def kerasActFn (tanhFn : ℚ → ℚ) (name : String) : ℚ → ℚ :=
  if name = "relu" then reluFn else if name = "tanh" then tanhFn else id

/-- Forward evaluation of one keras layer on a (flat) input vector.
`Dense` computes `x ⬝ kernel + bias`; keras `LeakyReLU` computes
`x` for `x > 0` and `alpha * x` otherwise. -/
def kLayerFwd (tanhFn : ℚ → ℚ) : KLayer → List ℚ → List ℚ
  | .flatten, x => x
  | .dense units kernel bias, x =>
      (List.range units).map fun j =>
        dot x (kernel.map fun row => row.getD j 0) + bias.getD j 0
  | .activation name, x => x.map (kerasActFn tanhFn name)
  | .leakyReLU a, x => x.map fun v => if 0 < v then v else a * v

/-- Forward evaluation of the keras sequential model. -/
def kerasForward (tanhFn : ℚ → ℚ) (layers : List KLayer) (x : List ℚ) : List ℚ :=
  layers.foldl (fun v l => kLayerFwd tanhFn l v) x

/-- Forward evaluation of one torch layer in evaluation mode on a (flat)
input vector.  `Linear` computes `weight ⬝ x + bias`; torch `LeakyReLU`
computes `negative_slope * x` for `x < 0` and `x` otherwise; `Dropout` is
the identity in evaluation mode.  (`other` layers are rejected by
`torch2keras`, so their semantics — here the identity — is never used.) -/
def tLayerFwd (tanhFn : ℚ → ℚ) : TLayer → List ℚ → List ℚ
  | .flatten, x => x
  | .linear _ _ w b, x =>
      List.zipWith (fun a c => a + c) (w.map fun row => dot row x) b
  | .relu, x => x.map reluFn
  | .tanh, x => x.map tanhFn
  | .leakyReLU s, x => x.map fun v => if v < 0 then s * v else v
  | .dropout, x => x
  | .other, x => x

/-- Forward evaluation of the torch sequential model in evaluation mode. -/
def torchForward (tanhFn : ℚ → ℚ) (layers : List TLayer) (x : List ℚ) : List ℚ :=
  layers.foldl (fun v l => tLayerFwd tanhFn l v) x

/-- Well-formedness of a torch layer: a `Linear` layer's weight really has
shape `(out_features, in_features)` and its bias length `out_features`
(an invariant torch maintains for every `nn.Linear`). -/
def wfLayer : TLayer → Bool
  | .linear i o w b =>
      w.length == o && (b.length == o && w.all fun row => row.length == i)
  | _ => true

/-- Well-formedness of a whole torch model. -/
def wfModel (m : List TLayer) : Bool := m.all wfLayer

/-! ## The adaptors -/

/-- The norm argument: `verify` and `calc_radius` turn the string
`norm_type` into a number through `{'1': 1, '2': 2, 'inf': np.inf}`, a
bijection between the three valid strings and the three norms, which we
model as one three-valued type used on both sides. -/
inductive PNorm
  | one
  | two
  | inf
deriving DecidableEq

/-- First index of the maximum, as `np.argmax` computes it
(0 for the empty list, on which numpy would raise instead). -/
def argmax (l : List ℚ) : ℕ :=
  (l.foldl
    (fun acc v =>
      if acc.2.2 < v then (acc.2.1, acc.2.1 + 1, v) else (acc.1, acc.2.1 + 1, acc.2.2))
    ((0 : ℕ), (0 : ℕ), l.headD 0)).1

/-- The state of a `RecurJacBase` adaptor after `__init__`: the converted
keras model (`self.model = RecurBaseModel(dataset, model)`, whose
`torch2keras` call yields the keras layers, the activation kind and the
activation parameter) and the hyperparameters.  The weight and bias lists
the constructor also stores (`self.weights, self.biases =
get_weights_list(self.model)`) belong to the external library's data and
live inside the `Oracle` below. -/
structure RecurJacState where
  kmodel : List KLayer
  activation : String
  activation_param : Option ℚ
  lipsteps : ℕ
  layerbndalg : String
  bounded_input : Bool
  jacbndalg : Option String
  lipsdir : ℤ
  lipsshift : ℤ
  steps : ℕ
deriving DecidableEq

/-- `RecurJacBase.__init__`: the hyperparameters it sets, given the
conversion's activation kind, activation parameter and keras layers.
`jacbndalg` starts as `None`, "to be concretized to 'fastlip' or
'recurjac'". -/
def RecurJacBase.mkState (activation : String) (activation_param : Option ℚ)
    (kmodel : List KLayer) : RecurJacState :=
  { kmodel := kmodel
    activation := activation
    activation_param := activation_param
    lipsteps := 15
    layerbndalg := if activation = "relu" then "crown-adaptive" else "crown-general"
    bounded_input := true
    jacbndalg := none
    lipsdir := -1
    lipsshift := 1
    steps := 15 }

/-- `FastLipAdaptor.__init__`: the base constructor, then
`self.jacbndalg = 'fastlip'`. -/
def FastLipAdaptor.mkState (a : String) (p : Option ℚ) (k : List KLayer) :
    RecurJacState :=
  { RecurJacBase.mkState a p k with jacbndalg := some "fastlip" }

/-- `RecurJacAdaptor.__init__`: the base constructor, then
`self.jacbndalg = 'recurjac'`. -/
def RecurJacAdaptor.mkState (a : String) (p : Option ℚ) (k : List KLayer) :
    RecurJacState :=
  { RecurJacBase.mkState a p k with jacbndalg := some "recurjac" }

/-- `SpectralAdaptor.__init__`: the base constructor, then
`self.layerbndalg = 'spectral'`. -/
def SpectralAdaptor.mkState (a : String) (p : Option ℚ) (k : List KLayer) :
    RecurJacState :=
  { RecurJacBase.mkState a p k with layerbndalg := "spectral" }

/-- `FastLinAdaptor.__init__`: the base constructor, then
`self.jacbndalg = 'disable'` and `self.layerbndalg = 'fastlin'`. -/
def FastLinAdaptor.mkState (a : String) (p : Option ℚ) (k : List KLayer) :
    RecurJacState :=
  { RecurJacBase.mkState a p k with jacbndalg := some "disable", layerbndalg := "fastlin" }

/-- The arguments of `compute_bounds_integral` that the wrapper itself
supplies (the `weights`/`biases` lists, and `numlayers = len(self.weights)`,
come from the external `get_weights_list` and are part of the external
state the `Oracle` closes over). -/
structure CbiQuery where
  pred_label : ℕ
  target_label : ℤ
  input : List ℚ
  pred : List ℚ
  norm : PNorm
  radius : ℚ
  lipsteps : ℕ
  layerbndalg : String
  jacbndalg : Option String
  untargeted : Bool
  activation : String
  activation_param : Option ℚ
  lipsdir : ℤ
  lipsshift : ℤ
deriving DecidableEq

/-- The arguments of `compute_bounds` that the wrapper itself supplies
(`jacalg` is the literal string `"disable"` passed at both call sites). -/
structure CbQuery where
  pred_label : ℕ
  target_label : ℤ
  input : List ℚ
  pred : List ℚ
  norm : PNorm
  radius : ℚ
  layerbndalg : String
  jacalg : String
  untargeted : Bool
  use_quad : Bool
  activation : String
  activation_param : Option ℚ
  bounded_input : Bool
deriving DecidableEq

/-- The arguments of `spectral_bound` that the wrapper itself supplies
(`flag` is the literal `True` the call passes last). -/
structure SpecQuery where
  pred_label : ℕ
  target_label : ℤ
  input : List ℚ
  pred : List ℚ
  activation : String
  norm : PNorm
  flag : Bool
deriving DecidableEq

/-- The `compute_bounds_integral` argument list built at its call sites:
`(…, pred_label, -1, input, pred, …, norm, radius, self.lipsteps,
self.layerbndalg, self.jacbndalg, untargeted=True, activation=…,
activation_param=…, lipsdir=self.lipsdir, lipsshift=self.lipsshift)`. -/
def mkCbiQuery (st : RecurJacState) (pl : ℕ) (input pred : List ℚ)
    (norm : PNorm) (radius : ℚ) : CbiQuery :=
  ⟨pl, -1, input, pred, norm, radius, st.lipsteps, st.layerbndalg, st.jacbndalg,
    true, st.activation, st.activation_param, st.lipsdir, st.lipsshift⟩

/-- The `compute_bounds` argument list built at its call sites:
`(…, pred_label, -1, input, pred, …, norm, radius, self.layerbndalg,
"disable", untargeted=True, use_quad=False, activation=…,
activation_param=…, bounded_input=True)`. -/
def mkCbQuery (st : RecurJacState) (pl : ℕ) (input pred : List ℚ)
    (norm : PNorm) (radius : ℚ) : CbQuery :=
  ⟨pl, -1, input, pred, norm, radius, st.layerbndalg, "disable",
    true, false, st.activation, st.activation_param, true⟩

/-- The `spectral_bound` argument list built at its call site:
`(…, pred_label, -1, input, pred, …, self.model.activation, norm, True)`. -/
def mkSpecQuery (st : RecurJacState) (pl : ℕ) (input pred : List ℚ)
    (norm : PNorm) : SpecQuery :=
  ⟨pl, -1, input, pred, st.activation, norm, true⟩

/-- The external `recurjac` bound functions, uninterpreted: they may return
anything.  `compute_bounds_integral` returns `robustness_lb`;
`compute_bounds` a 4-tuple whose first component is `gap_gx`;
`spectral_bound` a pair whose first component is `robustness_lb`. -/
structure Oracle where
  compute_bounds_integral : CbiQuery → ℚ
  compute_bounds : CbQuery → ℚ × ℚ × ℚ × ℚ
  spectral_bound : SpecQuery → ℚ × ℚ

/-- One observable external step of a `verify` / `calc_radius` call:
the keras `model.predict`, or one call into the external library. -/
inductive Ev
  | predict
  | cbi (q : CbiQuery)
  | cb (q : CbQuery)
  | spectral (q : SpecQuery)
deriving DecidableEq

/-- Whether an event is a call to one of the external bound functions. -/
def Ev.isBoundCall : Ev → Bool
  | .predict => false
  | _ => true

/-- A Python return value of `verify` / `calc_radius`: a bool or a float. -/
inductive PyVal
  | bool (b : Bool)
  | float (x : ℚ)
deriving DecidableEq

/-- Is the value a Python bool? -/
def PyVal.isBool : PyVal → Bool
  | .bool _ => true
  | .float _ => false

/-- The value as a number, the way Python compares it
(`True` counts as 1, `False` as 0). -/
def PyVal.asFloat : PyVal → ℚ
  | .bool b => if b then 1 else 0
  | .float x => x

/-- What one call to `verify` or `calc_radius` produces: the returned
value, the trace of external steps, and the adaptor state when the call
returns (the methods contain no assignment to `self`, so the embedding
passes the state through unchanged). -/
structure CallResult where
  value : PyVal
  trace : List Ev
  state : RecurJacState
deriving DecidableEq

/-- `pred_label`: the argmax of `self.model.model.predict` on the input
(`preds[0]` of the one-element batch). -/
def predLabelOf (tanhFn : ℚ → ℚ) (st : RecurJacState) (input : List ℚ) : ℕ :=
  argmax (kerasForward tanhFn st.kmodel input)

/-- `RecurJacBase.verify(self, input, label, norm_type, radius)`:
predict, return `0.0` on a mispredicted input, else call
`compute_bounds_integral` and return `robustness_lb == radius` when
`self.jacbndalg != 'disable'`, and otherwise call `compute_bounds` and
return `gap_gx >= 0`. -/
def RecurJacBase.verify (tanhFn : ℚ → ℚ) (orc : Oracle) (st : RecurJacState)
    (input : List ℚ) (label : ℕ) (norm_type : PNorm) (radius : ℚ) : CallResult :=
  let pred := kerasForward tanhFn st.kmodel input
  let pred_label := argmax pred
  if pred_label ≠ label then
    ⟨.float 0, [.predict], st⟩
  else
    if st.jacbndalg ≠ some "disable" then
      let q := mkCbiQuery st pred_label input pred norm_type radius
      let robustness_lb := orc.compute_bounds_integral q
      ⟨.bool (decide (robustness_lb = radius)), [.predict, .cbi q], st⟩
    else
      let q := mkCbQuery st pred_label input pred norm_type radius
      let gap_gx := (orc.compute_bounds q).1
      ⟨.bool (decide (0 ≤ gap_gx)), [.predict, .cb q], st⟩

/-- The `binary_search_cond` closure of `RecurJacBase.calc_radius` in the
`jacbndalg != 'disable'` branch: calls `compute_bounds_integral` at the
current radius and succeeds when `robustness_lb == current_eps`. -/
def binary_search_cond_jac (orc : Oracle) (st : RecurJacState) (pl : ℕ)
    (input pred : List ℚ) (norm : PNorm) : ℚ → (Bool × ℚ) × List Ev :=
  fun current_eps =>
    let q := mkCbiQuery st pl input pred norm current_eps
    let robustness_lb := orc.compute_bounds_integral q
    ((decide (robustness_lb = current_eps), robustness_lb), [Ev.cbi q])

/-- The `binary_search_cond` closure of `RecurJacBase.calc_radius` in the
`jacbndalg == 'disable'` branch: calls `compute_bounds` at the current
radius and succeeds when `gap_gx >= 0`. -/
def binary_search_cond_gap (orc : Oracle) (st : RecurJacState) (pl : ℕ)
    (input pred : List ℚ) (norm : PNorm) : ℚ → (Bool × ℚ) × List Ev :=
  fun current =>
    let q := mkCbQuery st pl input pred norm current
    let gap_gx := (orc.compute_bounds q).1
    ((decide (0 ≤ gap_gx), gap_gx), [Ev.cb q])

/-- The recursion of the modelled `binary_search`: `best` is the largest
radius the predicate has succeeded on so far, `[lo, hi]` the current
bracket, `cur` the radius to test next. -/
def bsGo (cond : ℚ → (Bool × ℚ) × List Ev) :
    ℕ → ℚ → ℚ → ℚ → ℚ → ℚ × List Ev
  | 0, best, _, _, _ => (best, [])
  | n + 1, best, lo, hi, cur =>
      let r := cond cur
      let ok := r.1.1
      let best' := if ok then cur else best
      let lo' := if ok then cur else lo
      let hi' := if ok then hi else cur
      let rest := bsGo cond n best' lo' hi' ((lo' + hi') / 2)
      (rest.1, r.2 ++ rest.2)

/-- Modelled from the spec: `binary_search` is imported from
`recurjac.utils`, whose code is not among this repository's source files.
The spec describes it as a "generic scalar search over a monotone
certification predicate to find the maximal certifiable radius"; we model
it as a bisection of `[0, current]` running for `max_steps` steps that
returns the largest tested radius on which the predicate succeeded
(`0.0` when it never succeeded), together with the trace of external
calls the predicate makes. -/
def binary_search (cond : ℚ → (Bool × ℚ) × List Ev) (current : ℚ)
    (max_steps : ℕ) : ℚ × List Ev :=
  bsGo cond max_steps 0 0 current current

/-- `RecurJacBase.calc_radius(self, input, label, norm_type, upper=0.5,
eps=1e-4)`: predict, return `0.0` on a mispredicted input, else binary
search — from `upper` over the `compute_bounds_integral` condition when
`self.jacbndalg != 'disable'`, from `eps` over the `compute_bounds`
condition otherwise — with `max_steps=self.steps`, and return the found
`robustness_lb`. -/
def RecurJacBase.calc_radius (tanhFn : ℚ → ℚ) (orc : Oracle)
    (st : RecurJacState) (input : List ℚ) (label : ℕ) (norm_type : PNorm)
    (upper eps : ℚ) : CallResult :=
  let pred := kerasForward tanhFn st.kmodel input
  let pred_label := argmax pred
  if pred_label ≠ label then
    ⟨.float 0, [.predict], st⟩
  else
    if st.jacbndalg ≠ some "disable" then
      let r := binary_search (binary_search_cond_jac orc st pred_label input pred norm_type)
        upper st.steps
      ⟨.float r.1, Ev.predict :: r.2, st⟩
    else
      let r := binary_search (binary_search_cond_gap orc st pred_label input pred norm_type)
        eps st.steps
      ⟨.float r.1, Ev.predict :: r.2, st⟩

/-- `SpectralAdaptor.calc_radius(self, input, label, norm_type, upper=0.5,
eps=1e-4)`: predict, return `0.0` on a mispredicted input, else return the
`robustness_lb` component of one `spectral_bound` call — no binary search,
and `upper` and `eps` are never read. -/
def SpectralAdaptor.calc_radius (tanhFn : ℚ → ℚ) (orc : Oracle)
    (st : RecurJacState) (input : List ℚ) (label : ℕ) (norm_type : PNorm)
    (upper eps : ℚ) : CallResult :=
  let pred := kerasForward tanhFn st.kmodel input
  let pred_label := argmax pred
  if pred_label ≠ label then
    ⟨.float 0, [.predict], st⟩
  else
    let q := mkSpecQuery st pred_label input pred norm_type
    ⟨.float (orc.spectral_bound q).1, [.predict, .spectral q], st⟩

/-- `SpectralAdaptor.verify(self, input, label, norm_type, radius)`:
`return radius <= self.calc_radius(input, label, norm_type)`, the callee
running with its default `upper=0.5` and `eps=1e-4`. -/
def SpectralAdaptor.verify (tanhFn : ℚ → ℚ) (orc : Oracle)
    (st : RecurJacState) (input : List ℚ) (label : ℕ) (norm_type : PNorm)
    (radius : ℚ) : CallResult :=
  let r := SpectralAdaptor.calc_radius tanhFn orc st input label norm_type (1/2) (1/10000)
  ⟨.bool (decide (radius ≤ r.value.asFloat)), r.trace, st⟩

/-! ## Lemmas: the conversion preserves the evaluated function -/

lemma getD_map_range {α : Type} (f : ℕ → α) (n j : ℕ) (d : α) (h : j < n) :
    ((List.range n).map f).getD j d = f j := by
  have hlen : j < ((List.range n).map f).length := by simpa using h
  rw [List.getD_eq_getElem _ _ hlen, List.getElem_map]
  simp

lemma map_range_getD (row : List ℚ) (i : ℕ) (h : row.length = i) :
    (List.range i).map (fun r => row.getD r 0) = row := by
  apply List.ext_getElem
  · simp [h]
  · intro j h1 h2
    rw [List.getElem_map]
    simp only [List.getElem_range]
    rw [List.getD_eq_getElem _ _ h2]

lemma dot_comm (xs ys : List ℚ) : dot xs ys = dot ys xs := by
  unfold dot
  rw [List.zipWith_comm_of_comm]
  intro a b
  ring

/-- Column `j` of the transposed weight tensor is row `j` of the weight. -/
lemma transposeTensor_col (w : List (List ℚ)) (o i j : ℕ) (hj : j < o)
    (hrow : ∀ row ∈ w, row.length = i) (hjw : j < w.length) :
    (transposeTensor w o i).map (fun row => row.getD j 0) = w.getD j [] := by
  unfold transposeTensor
  rw [List.map_map]
  have h1 : ∀ r ∈ List.range i,
      ((fun row => row.getD j 0) ∘ fun r => (List.range o).map fun c => entryD w c r) r
        = (w.getD j []).getD r 0 := by
    intro r _
    simp only [Function.comp]
    rw [getD_map_range _ _ _ _ hj]
    rfl
  rw [List.map_congr_left h1]
  apply map_range_getD
  rw [List.getD_eq_getElem _ _ hjw]
  exact hrow _ (List.getElem_mem hjw)

/-- A `Dense` layer holding the transposed torch weight computes exactly
what the torch `Linear` layer computes, on every input vector. -/
lemma kLayerFwd_dense (tanhFn : ℚ → ℚ) (i o : ℕ) (w : List (List ℚ))
    (b : List ℚ) (x : List ℚ) (hw : w.length = o) (hb : b.length = o)
    (hrow : ∀ row ∈ w, row.length = i) :
    kLayerFwd tanhFn (.dense o (transposeTensor w o i) b) x
      = tLayerFwd tanhFn (.linear i o w b) x := by
  simp only [kLayerFwd, tLayerFwd]
  apply List.ext_getElem
  · simp [hw, hb]
  · intro j h1 h2
    have hj : j < o := by simpa using h1
    have hjw : j < w.length := by omega
    have hjb : j < b.length := by omega
    rw [List.getElem_map, List.getElem_zipWith, List.getElem_map]
    simp only [List.getElem_range]
    rw [transposeTensor_col w o i j hj hrow hjw]
    rw [List.getD_eq_getElem _ _ hjw, List.getD_eq_getElem _ _ hjb]
    rw [dot_comm]

/-- Per torch layer: its keras translation evaluates identically. -/
lemma kerasForward_convLayer (tanhFn : ℚ → ℚ) (l : TLayer)
    (hl : wfLayer l = true) (x : List ℚ) :
    kerasForward tanhFn (convLayer l) x = tLayerFwd tanhFn l x := by
  cases l with
  | flatten => rfl
  | linear i o w b =>
      simp only [wfLayer, Bool.and_eq_true, beq_iff_eq, List.all_eq_true] at hl
      exact kLayerFwd_dense tanhFn i o w b x hl.1 hl.2.1
        (fun row hr => hl.2.2 row hr)
  | relu =>
      show x.map (kerasActFn tanhFn "relu") = x.map reluFn
      simp [kerasActFn]
  | tanh =>
      show x.map (kerasActFn tanhFn "tanh") = x.map tanhFn
      simp [kerasActFn]
  | leakyReLU s =>
      show x.map (fun v => if 0 < v then v else s * v)
        = x.map (fun v => if v < 0 then s * v else v)
      apply List.map_congr_left
      intro v _
      rcases lt_trichotomy v 0 with h | h | h
      · rw [if_neg (by linarith), if_pos h]
      · subst h
        simp
      · rw [if_pos h, if_neg (by linarith)]
  | dropout => rfl
  | other => rfl

/-- The keras model of a well-formed torch model evaluates identically. -/
lemma kerasForward_convAll (tanhFn : ℚ → ℚ) (m : List TLayer)
    (h : wfModel m = true) (x : List ℚ) :
    kerasForward tanhFn (convAll m) x = torchForward tanhFn m x := by
  induction m generalizing x with
  | nil => rfl
  | cons l rest ih =>
      simp only [wfModel, List.all_cons, Bool.and_eq_true] at h
      show kerasForward tanhFn (convLayer l ++ convAll rest) x = _
      unfold kerasForward torchForward
      rw [List.foldl_append]
      have step : List.foldl (fun v kl => kLayerFwd tanhFn kl v) x (convLayer l)
          = tLayerFwd tanhFn l x := kerasForward_convLayer tanhFn l h.1 x
      rw [step]
      exact ih h.2 (tLayerFwd tanhFn l x)

/-! ## Lemmas: the shape of `torch2keras`'s result -/

/-- An unsupported layer anywhere in the model raises
`NotImplementedError` from the conversion loop. -/
lemma t2kGo_other (rest : List TLayer) (h : TLayer.other ∈ rest) :
    ∀ ans acts p, t2kGo rest ans acts p = .error .notImplemented := by
  induction rest with
  | nil => cases h
  | cons l tl ih =>
      intro ans acts p
      rcases List.mem_cons.mp h with h1 | h1
      · subst h1
        rfl
      · cases l <;> simp only [t2kGo] <;> exact ih h1 _ _ _

/-- When no layer is unsupported, the conversion loop returns the
accumulated keras layers, activation kinds and activation parameter. -/
lemma t2kGo_ok (rest : List TLayer) (h : TLayer.other ∉ rest) :
    ∀ ans acts p, t2kGo rest ans acts p
      = .ok (ans ++ convAll rest, acts ++ activKinds rest, foldParam p rest) := by
  induction rest with
  | nil => intro ans acts p; simp [t2kGo, convAll, activKinds, foldParam]
  | cons l tl ih =>
      intro ans acts p
      have hl : l ≠ TLayer.other := fun he => h (he ▸ List.mem_cons_self l tl)
      have htl : TLayer.other ∉ tl := fun he => h (List.mem_cons_of_mem l he)
      cases l with
      | flatten => simp [t2kGo, ih htl, convAll, convLayer, activKinds, foldParam]
      | linear i o w b => simp [t2kGo, ih htl, convAll, convLayer, activKinds, foldParam]
      | relu => simp [t2kGo, ih htl, convAll, convLayer, activKinds, foldParam]
      | tanh => simp [t2kGo, ih htl, convAll, convLayer, activKinds, foldParam]
      | leakyReLU s => simp [t2kGo, ih htl, convAll, convLayer, activKinds, foldParam]
      | dropout => simp [t2kGo, ih htl, convAll, convLayer, activKinds, foldParam]
      | other => exact absurd rfl hl

/-- `torch2keras` on a model with no unsupported layer: success holding
the translated layers exactly when the model uses one activation kind,
the assertion failure otherwise. -/
lemma torch2keras_no_other (model : List TLayer) (h : TLayer.other ∉ model) :
    torch2keras model
      = if (activKinds model).dedup.length = 1 then
          .ok (convAll model, (activKinds model).dedup.headD "", foldParam none model)
        else .error .assertionError := by
  unfold torch2keras
  rw [t2kGo_ok model h]
  simp

/-! ## Lemmas: the binary search and the call traces -/

/-- The bisection never returns more than any bound `C` that dominates its
running best value and bracket. -/
lemma bsGo_le (cond : ℚ → (Bool × ℚ) × List Ev) (C : ℚ) :
    ∀ (n : ℕ) (best lo hi cur : ℚ), best ≤ C → lo ≤ C → hi ≤ C → cur ≤ C →
      (bsGo cond n best lo hi cur).1 ≤ C := by
  intro n
  induction n with
  | zero =>
      intro best lo hi cur hb _ _ _
      exact hb
  | succ n ih =>
      intro best lo hi cur hb hlo hhi hcur
      by_cases hok : (cond cur).1.1 = true
      · simp only [bsGo, hok, if_true]
        exact ih cur cur hi ((cur + hi) / 2) hcur hcur hhi (by linarith)
      · simp only [bsGo, hok, if_false]
        exact ih best lo cur ((lo + cur) / 2) hb hlo hcur (by linarith)

/-- The modelled `binary_search` from a nonnegative starting radius never
returns more than that radius. -/
lemma binary_search_le (cond : ℚ → (Bool × ℚ) × List Ev) (current : ℚ)
    (steps : ℕ) (h : 0 ≤ current) :
    (binary_search cond current steps).1 ≤ current := by
  unfold binary_search
  exact bsGo_le cond current steps 0 0 current current h h le_rfl le_rfl

/-- Every event of the bisection's trace comes from the predicate. -/
lemma bsGo_trace (cond : ℚ → (Bool × ℚ) × List Ev)
    (hc : ∀ x, ∀ e ∈ (cond x).2, e.isBoundCall = true) :
    ∀ (n : ℕ) (best lo hi cur : ℚ), ∀ e ∈ (bsGo cond n best lo hi cur).2,
      e.isBoundCall = true := by
  intro n
  induction n with
  | zero =>
      intro best lo hi cur e he
      simp [bsGo] at he
  | succ n ih =>
      intro best lo hi cur e he
      simp only [bsGo, List.mem_append] at he
      rcases he with h1 | h1
      · exact hc cur e h1
      · exact ih _ _ _ _ e h1

/-- Every event in a `binary_search`'s trace is an external bound call,
when the predicate only makes bound calls. -/
lemma binary_search_trace_calls (cond : ℚ → (Bool × ℚ) × List Ev)
    (hc : ∀ x, ∀ e ∈ (cond x).2, e.isBoundCall = true) (current : ℚ) (steps : ℕ) :
    ∀ e ∈ (binary_search cond current steps).2, e.isBoundCall = true := by
  unfold binary_search
  exact bsGo_trace cond hc steps 0 0 current current

/-- The trace of `RecurJacBase.verify`, by branch. -/
lemma verify_trace (tanhFn : ℚ → ℚ) (orc : Oracle) (st : RecurJacState)
    (input : List ℚ) (label : ℕ) (norm : PNorm) (radius : ℚ) :
    (RecurJacBase.verify tanhFn orc st input label norm radius).trace
      = if argmax (kerasForward tanhFn st.kmodel input) ≠ label then [Ev.predict]
        else if st.jacbndalg ≠ some "disable" then
          [Ev.predict, Ev.cbi (mkCbiQuery st (argmax (kerasForward tanhFn st.kmodel input))
            input (kerasForward tanhFn st.kmodel input) norm radius)]
        else
          [Ev.predict, Ev.cb (mkCbQuery st (argmax (kerasForward tanhFn st.kmodel input))
            input (kerasForward tanhFn st.kmodel input) norm radius)] := by
  unfold RecurJacBase.verify
  by_cases hp : argmax (kerasForward tanhFn st.kmodel input) = label <;>
    by_cases hj : st.jacbndalg = some "disable" <;>
      simp [hp, hj]

/-- The trace of `RecurJacBase.calc_radius`, by branch. -/
lemma calc_radius_trace (tanhFn : ℚ → ℚ) (orc : Oracle) (st : RecurJacState)
    (input : List ℚ) (label : ℕ) (norm : PNorm) (upper eps : ℚ) :
    (RecurJacBase.calc_radius tanhFn orc st input label norm upper eps).trace
      = if argmax (kerasForward tanhFn st.kmodel input) ≠ label then [Ev.predict]
        else if st.jacbndalg ≠ some "disable" then
          Ev.predict :: (binary_search (binary_search_cond_jac orc st
            (argmax (kerasForward tanhFn st.kmodel input)) input
            (kerasForward tanhFn st.kmodel input) norm) upper st.steps).2
        else
          Ev.predict :: (binary_search (binary_search_cond_gap orc st
            (argmax (kerasForward tanhFn st.kmodel input)) input
            (kerasForward tanhFn st.kmodel input) norm) eps st.steps).2 := by
  unfold RecurJacBase.calc_radius
  by_cases hp : argmax (kerasForward tanhFn st.kmodel input) = label <;>
    by_cases hj : st.jacbndalg = some "disable" <;>
      simp [hp, hj]

/-- The trace of `SpectralAdaptor.calc_radius`, by branch. -/
lemma spectral_calc_radius_trace (tanhFn : ℚ → ℚ) (orc : Oracle)
    (st : RecurJacState) (input : List ℚ) (label : ℕ) (norm : PNorm)
    (upper eps : ℚ) :
    (SpectralAdaptor.calc_radius tanhFn orc st input label norm upper eps).trace
      = if argmax (kerasForward tanhFn st.kmodel input) ≠ label then [Ev.predict]
        else [Ev.predict, Ev.spectral (mkSpecQuery st
          (argmax (kerasForward tanhFn st.kmodel input)) input
          (kerasForward tanhFn st.kmodel input) norm)] := by
  unfold SpectralAdaptor.calc_radius
  by_cases hp : argmax (kerasForward tanhFn st.kmodel input) = label <;> simp [hp]

/-- The trace of `SpectralAdaptor.verify` is its `calc_radius` trace. -/
lemma spectral_verify_trace (tanhFn : ℚ → ℚ) (orc : Oracle)
    (st : RecurJacState) (input : List ℚ) (label : ℕ) (norm : PNorm)
    (radius : ℚ) :
    (SpectralAdaptor.verify tanhFn orc st input label norm radius).trace
      = (SpectralAdaptor.calc_radius tanhFn orc st input label norm
          (1/2) (1/10000)).trace := by
  rfl

/-- The value of `RecurJacBase.calc_radius`, by branch. -/
lemma calc_radius_value (tanhFn : ℚ → ℚ) (orc : Oracle) (st : RecurJacState)
    (input : List ℚ) (label : ℕ) (norm : PNorm) (upper eps : ℚ) :
    (RecurJacBase.calc_radius tanhFn orc st input label norm upper eps).value
      = if argmax (kerasForward tanhFn st.kmodel input) ≠ label then PyVal.float 0
        else if st.jacbndalg ≠ some "disable" then
          PyVal.float (binary_search (binary_search_cond_jac orc st
            (argmax (kerasForward tanhFn st.kmodel input)) input
            (kerasForward tanhFn st.kmodel input) norm) upper st.steps).1
        else
          PyVal.float (binary_search (binary_search_cond_gap orc st
            (argmax (kerasForward tanhFn st.kmodel input)) input
            (kerasForward tanhFn st.kmodel input) norm) eps st.steps).1 := by
  unfold RecurJacBase.calc_radius
  by_cases hp : argmax (kerasForward tanhFn st.kmodel input) = label <;>
    by_cases hj : st.jacbndalg = some "disable" <;>
      simp [hp, hj]

/-- The value of `SpectralAdaptor.calc_radius`, by branch. -/
lemma spectral_calc_radius_value (tanhFn : ℚ → ℚ) (orc : Oracle)
    (st : RecurJacState) (input : List ℚ) (label : ℕ) (norm : PNorm)
    (upper eps : ℚ) :
    (SpectralAdaptor.calc_radius tanhFn orc st input label norm upper eps).value
      = if argmax (kerasForward tanhFn st.kmodel input) ≠ label then PyVal.float 0
        else PyVal.float (orc.spectral_bound (mkSpecQuery st
          (argmax (kerasForward tanhFn st.kmodel input)) input
          (kerasForward tanhFn st.kmodel input) norm)).1 := by
  unfold SpectralAdaptor.calc_radius
  by_cases hp : argmax (kerasForward tanhFn st.kmodel input) = label <;> simp [hp]

/-- Both branches of the integral condition emit only bound calls. -/
lemma cond_jac_calls (orc : Oracle) (st : RecurJacState) (pl : ℕ)
    (input pred : List ℚ) (norm : PNorm) :
    ∀ x, ∀ e ∈ (binary_search_cond_jac orc st pl input pred norm x).2,
      e.isBoundCall = true := by
  intro x e he
  simp only [binary_search_cond_jac, List.mem_singleton] at he
  subst he
  rfl

/-- Both branches of the gap condition emit only bound calls. -/
lemma cond_gap_calls (orc : Oracle) (st : RecurJacState) (pl : ℕ)
    (input pred : List ℚ) (norm : PNorm) :
    ∀ x, ∀ e ∈ (binary_search_cond_gap orc st pl input pred norm x).2,
      e.isBoundCall = true := by
  intro x e he
  simp only [binary_search_cond_gap, List.mem_singleton] at he
  subst he
  rfl

/-- `RecurJacBase.verify` leaves the adaptor state unchanged. -/
lemma verify_state (tanhFn : ℚ → ℚ) (orc : Oracle) (st : RecurJacState)
    (input : List ℚ) (label : ℕ) (norm : PNorm) (radius : ℚ) :
    (RecurJacBase.verify tanhFn orc st input label norm radius).state = st := by
  unfold RecurJacBase.verify
  by_cases hp : argmax (kerasForward tanhFn st.kmodel input) = label <;>
    by_cases hj : st.jacbndalg = some "disable" <;>
      simp [hp, hj]

/-- `RecurJacBase.calc_radius` leaves the adaptor state unchanged. -/
lemma calc_radius_state (tanhFn : ℚ → ℚ) (orc : Oracle) (st : RecurJacState)
    (input : List ℚ) (label : ℕ) (norm : PNorm) (upper eps : ℚ) :
    (RecurJacBase.calc_radius tanhFn orc st input label norm upper eps).state = st := by
  unfold RecurJacBase.calc_radius
  by_cases hp : argmax (kerasForward tanhFn st.kmodel input) = label <;>
    by_cases hj : st.jacbndalg = some "disable" <;>
      simp [hp, hj]

/-- `SpectralAdaptor.calc_radius` leaves the adaptor state unchanged. -/
lemma spectral_calc_radius_state (tanhFn : ℚ → ℚ) (orc : Oracle)
    (st : RecurJacState) (input : List ℚ) (label : ℕ) (norm : PNorm)
    (upper eps : ℚ) :
    (SpectralAdaptor.calc_radius tanhFn orc st input label norm upper eps).state = st := by
  unfold SpectralAdaptor.calc_radius
  by_cases hp : argmax (kerasForward tanhFn st.kmodel input) = label <;> simp [hp]

/-! ## Concrete fixtures used by witnesses and counterexamples -/

/-- A concrete torch model: Flatten, a 2×2 Linear, ReLU, Dropout. -/
def modelW : List TLayer :=
  [TLayer.flatten, TLayer.linear 2 2 [[1, 2], [3, 4]] [5, 6], TLayer.relu,
    TLayer.dropout]

/-- The keras model `torch2keras` produces for `modelW` (the Dense kernel
is the transposed weight). -/
def kmodelW : List KLayer :=
  [KLayer.flatten, KLayer.dense 2 [[1, 3], [2, 4]] [5, 6], KLayer.activation "relu"]

/-- A concrete external library returning 1 from every bound function. -/
def oracle0 : Oracle :=
  ⟨fun _ => 1, fun _ => (1, 0, 0, 0), fun _ => (1, 0)⟩

/-- A tiny converted keras model: one 1×1 Dense, then ReLU.  It maps the
input `[1]` to `[1]`, whose argmax — the predicted label — is 0. -/
def kmodel0 : List KLayer := [KLayer.dense 1 [[1]] [0], KLayer.activation "relu"]

/-- A `FastLipAdaptor` over `kmodel0`. -/
def stFast0 : RecurJacState := FastLipAdaptor.mkState "relu" none kmodel0

/-- A `SpectralAdaptor` over `kmodel0`. -/
def stSpec0 : RecurJacState := SpectralAdaptor.mkState "relu" none kmodel0

lemma stFast0_kmodel : stFast0.kmodel = kmodel0 := rfl

lemma stSpec0_kmodel : stSpec0.kmodel = kmodel0 := rfl

/-- `kmodel0` maps `[1]` to `[1]`. -/
lemma kmodel0_forward : kerasForward (fun x => x) kmodel0 [1] = [1] := by
  norm_num [kerasForward, kmodel0, kLayerFwd, dot, kerasActFn, reluFn, List.range_succ]

/-- The label `kmodel0` predicts on `[1]` is 0. -/
lemma kmodel0_pred_label : argmax (kerasForward (fun x => x) kmodel0 [1]) = 0 := by
  rw [kmodel0_forward]
  norm_num [argmax]

/-! ## The claims -/

/-- **C1**: for every torch sequential model built only from Flatten,
Linear, ReLU, Tanh, LeakyReLU and Dropout layers (with torch's weight
shapes, `wfModel`), the keras model returned by `torch2keras` — Dense
layers holding the transposed torch weights and the same biases, the
corresponding keras activations, Dropout omitted — computes the same
function as the torch model in evaluation mode. -/
theorem C1_torch2keras_same_function (tanhFn : ℚ → ℚ) (model : List TLayer)
    (k : List KLayer) (act : String) (p : Option ℚ)
    (hok : torch2keras model = Except.ok (k, act, p))
    (hwf : wfModel model = true) :
    ∀ x, kerasForward tanhFn k x = torchForward tanhFn model x := by
  have hno : TLayer.other ∉ model := by
    intro hmem
    have hbad : torch2keras model = Except.error ConvErr.notImplemented := by
      unfold torch2keras
      rw [t2kGo_other model hmem]
    rw [hbad] at hok
    cases hok
  rw [torch2keras_no_other model hno] at hok
  by_cases hone : (activKinds model).dedup.length = 1
  · rw [if_pos hone] at hok
    simp only [Except.ok.injEq, Prod.mk.injEq] at hok
    obtain ⟨hk, _, _⟩ := hok
    intro x
    rw [← hk]
    exact kerasForward_convAll tanhFn model hwf x
  · rw [if_neg hone] at hok
    cases hok

/-- Witness for C1: the concrete conversion of `modelW` and both
evaluations at the input `[1, -1]`. -/
theorem C1_torch2keras_same_function_witness :
    torch2keras modelW = Except.ok (kmodelW, "relu", none)
      ∧ wfModel modelW = true
      ∧ kerasForward id kmodelW [1, -1] = torchForward id modelW [1, -1] :=
  ⟨rfl, by decide,
    C1_torch2keras_same_function id modelW kmodelW "relu" none rfl
      (by decide) [1, -1]⟩

/-- **C8**: `torch2keras` raises `NotImplementedError` on any layer that is
not Flatten, Linear, ReLU, Tanh, LeakyReLU or Dropout; on supported layers
it succeeds exactly when the model's activation layers use one single
activation kind among relu, tanh and leaky, and a model with zero
activation layers or with two or more distinct kinds fails the
`assert len(activation) == 1`. -/
theorem C8_torch2keras_errors (model : List TLayer) :
    (TLayer.other ∈ model → torch2keras model = .error .notImplemented)
    ∧ (TLayer.other ∉ model →
        ((∃ out, torch2keras model = .ok out)
          ↔ (activKinds model).dedup.length = 1))
    ∧ (TLayer.other ∉ model →
        (activKinds model = [] ∨ 2 ≤ (activKinds model).dedup.length) →
        torch2keras model = .error .assertionError) := by
  refine ⟨?_, ?_, ?_⟩
  · intro hmem
    unfold torch2keras
    rw [t2kGo_other model hmem]
  · intro hno
    rw [torch2keras_no_other model hno]
    constructor
    · rintro ⟨out, hout⟩
      by_contra hne
      rw [if_neg hne] at hout
      cases hout
    · intro hone
      rw [if_pos hone]
      exact ⟨_, rfl⟩
  · intro hno hbad
    have hne : (activKinds model).dedup.length ≠ 1 := by
      rcases hbad with h1 | h1
      · simp [h1]
      · omega
    rw [torch2keras_no_other model hno, if_neg hne]

/-- **C2** (the code's slip): at a mispredicted input,
`RecurJacBase.verify` — the `verify` inherited by `FastLipAdaptor`,
`RecurJacAdaptor` and `FastLinAdaptor` — returns the float `0.0` and not a
boolean, against its own `-> bool` annotation: here a `FastLipAdaptor`
whose model maps `[1]` to predicted label 0, queried with label 1. -/
theorem C2_verify_float_on_mispredict :
    (RecurJacBase.verify (fun x => x) oracle0 stFast0 [1] 1 PNorm.inf 1).value
        = PyVal.float 0
    ∧ ((RecurJacBase.verify (fun x => x) oracle0 stFast0 [1] 1 PNorm.inf 1).value).isBool
        = false := by
  have h : argmax (kerasForward (fun x => x) stFast0.kmodel [1]) ≠ 1 := by
    rw [stFast0_kmodel, kmodel0_pred_label]
    omega
  constructor <;> simp [RecurJacBase.verify, h, PyVal.isBool]

/-- **C3**: on a correctly predicted input, the verdict of
`RecurJacBase.verify` is exactly the stated function of the external
library's return value, for an arbitrary (uninterpreted) library `orc`:
`robustness_lb == radius` when the Jacobian bound algorithm is enabled
(`FastLipAdaptor`, `RecurJacAdaptor`), `gap_gx >= 0` when it is
`'disable'` (`FastLinAdaptor`).  The wrapper computes no bound itself. -/
theorem C3_verify_is_external_verdict (tanhFn : ℚ → ℚ) (orc : Oracle)
    (st : RecurJacState) (input : List ℚ) (label : ℕ) (norm : PNorm)
    (radius : ℚ) (h : predLabelOf tanhFn st input = label) :
    (st.jacbndalg ≠ some "disable" →
      (RecurJacBase.verify tanhFn orc st input label norm radius).value
        = PyVal.bool (decide (orc.compute_bounds_integral
            (mkCbiQuery st label input (kerasForward tanhFn st.kmodel input)
              norm radius) = radius)))
    ∧ (st.jacbndalg = some "disable" →
      (RecurJacBase.verify tanhFn orc st input label norm radius).value
        = PyVal.bool (decide (0 ≤ (orc.compute_bounds
            (mkCbQuery st label input (kerasForward tanhFn st.kmodel input)
              norm radius)).1))) := by
  unfold predLabelOf at h
  constructor
  · intro hjac
    simp [RecurJacBase.verify, h, hjac]
  · intro hjac
    simp [RecurJacBase.verify, h, hjac]

/-- Witness for C3 at a concrete adaptor, input and oracle. -/
theorem C3_verify_is_external_verdict_witness :
    (RecurJacBase.verify (fun x => x) oracle0 stFast0 [1] 0 PNorm.inf 1).value
      = PyVal.bool (decide (oracle0.compute_bounds_integral
          (mkCbiQuery stFast0 0 [1] (kerasForward (fun x => x) stFast0.kmodel [1])
            PNorm.inf 1) = 1)) :=
  (C3_verify_is_external_verdict (fun x => x) oracle0 stFast0 [1] 0 PNorm.inf 1
    (by rw [predLabelOf, stFast0_kmodel]; exact kmodel0_pred_label)).1 (by decide)

/-- **C4** (counterexample): `SpectralAdaptor.calc_radius` neither runs the
binary search nor stays below `upper`: with an external `spectral_bound`
returning 1, the correctly-predicted input `[1]` yields the radius 1,
above `upper = 1/2`, and the trace holds only the prediction and the one
`spectral_bound` call — no binary-search bound calls. -/
theorem C4_spectral_calc_radius_cex :
    (1 : ℚ)/2 < ((SpectralAdaptor.calc_radius (fun x => x) oracle0 stSpec0 [1] 0
        PNorm.inf (1/2) (1/10000)).value).asFloat
    ∧ (SpectralAdaptor.calc_radius (fun x => x) oracle0 stSpec0 [1] 0
        PNorm.inf (1/2) (1/10000)).trace
      = [Ev.predict, Ev.spectral (mkSpecQuery stSpec0 0 [1]
          (kerasForward (fun x => x) stSpec0.kmodel [1]) PNorm.inf)] := by
  have h : argmax (kerasForward (fun x => x) stSpec0.kmodel [1]) = 0 := by
    rw [stSpec0_kmodel]
    exact kmodel0_pred_label
  constructor
  · rw [spectral_calc_radius_value]
    simp only [h]
    norm_num [PyVal.asFloat, oracle0]
  · rw [spectral_calc_radius_trace]
    simp [h]

/-- **C4** (amended): on a correctly predicted input, the `calc_radius`
shared by `FastLipAdaptor`, `RecurJacAdaptor` and `FastLinAdaptor` returns
exactly the result of the generic `binary_search` over the certification
predicate — started from `upper` when the Jacobian bound algorithm is
enabled, and from `eps` when it is `'disable'` — and (for the modelled
bisection) that result never exceeds the nonnegative starting value;
`SpectralAdaptor.calc_radius` instead returns the external spectral bound
directly, with no binary search and no bound from `upper`. -/
theorem C4_calc_radius_via_binary_search (tanhFn : ℚ → ℚ) (orc : Oracle)
    (st : RecurJacState) (input : List ℚ) (label : ℕ) (norm : PNorm)
    (upper eps : ℚ) (h : predLabelOf tanhFn st input = label) :
    (st.jacbndalg ≠ some "disable" →
      (RecurJacBase.calc_radius tanhFn orc st input label norm upper eps).value
        = PyVal.float (binary_search (binary_search_cond_jac orc st label input
            (kerasForward tanhFn st.kmodel input) norm) upper st.steps).1
      ∧ (0 ≤ upper →
        ((RecurJacBase.calc_radius tanhFn orc st input label norm upper eps).value).asFloat
          ≤ upper))
    ∧ (st.jacbndalg = some "disable" →
      (RecurJacBase.calc_radius tanhFn orc st input label norm upper eps).value
        = PyVal.float (binary_search (binary_search_cond_gap orc st label input
            (kerasForward tanhFn st.kmodel input) norm) eps st.steps).1
      ∧ (0 ≤ eps →
        ((RecurJacBase.calc_radius tanhFn orc st input label norm upper eps).value).asFloat
          ≤ eps))
    ∧ (SpectralAdaptor.calc_radius tanhFn orc st input label norm upper eps).value
        = PyVal.float (orc.spectral_bound (mkSpecQuery st label input
            (kerasForward tanhFn st.kmodel input) norm)).1 := by
  unfold predLabelOf at h
  refine ⟨fun hjac => ⟨?_, fun hu => ?_⟩, fun hjac => ⟨?_, fun he => ?_⟩, ?_⟩
  · rw [calc_radius_value]
    simp [h, hjac]
  · rw [calc_radius_value]
    simp only [h, hjac, ne_eq, not_true_eq_false, if_false, if_true,
      not_false_eq_true, ite_not]
    simp only [PyVal.asFloat]
    exact binary_search_le _ upper st.steps hu
  · rw [calc_radius_value]
    simp [h, hjac]
  · rw [calc_radius_value]
    simp only [h, hjac, ne_eq, not_true_eq_false, if_false, if_true,
      not_false_eq_true, ite_not]
    simp only [PyVal.asFloat]
    exact binary_search_le _ eps st.steps he
  · rw [spectral_calc_radius_value]
    simp [h]

/-- Witness for C4 at a concrete `FastLipAdaptor`, input and oracle. -/
theorem C4_calc_radius_via_binary_search_witness :
    (RecurJacBase.calc_radius (fun x => x) oracle0 stFast0 [1] 0 PNorm.inf
        (1/2) (1/10000)).value
      = PyVal.float (binary_search (binary_search_cond_jac oracle0 stFast0 0 [1]
          (kerasForward (fun x => x) stFast0.kmodel [1]) PNorm.inf)
          (1/2) stFast0.steps).1 :=
  ((C4_calc_radius_via_binary_search (fun x => x) oracle0 stFast0 [1] 0 PNorm.inf
    (1/2) (1/10000)
    (by unfold predLabelOf; rw [stFast0_kmodel]; exact kmodel0_pred_label)).1
    (by decide)).1

/-- The shape the spec gives every call's behaviour: the prediction comes
first, everything after it is an external bound call, and nothing at all
follows the prediction when the input was mispredicted. -/
def traceShape (pl label : ℕ) (tr : List Ev) : Prop :=
  tr.head? = some Ev.predict
  ∧ (∀ e ∈ tr.tail, e.isBoundCall = true)
  ∧ (pl ≠ label → tr = [Ev.predict])

lemma traceShape_verify (tanhFn : ℚ → ℚ) (orc : Oracle) (st : RecurJacState)
    (input : List ℚ) (label : ℕ) (norm : PNorm) (radius : ℚ) :
    traceShape (argmax (kerasForward tanhFn st.kmodel input)) label
      (RecurJacBase.verify tanhFn orc st input label norm radius).trace := by
  rw [verify_trace]
  by_cases hp : argmax (kerasForward tanhFn st.kmodel input) = label
  · by_cases hj : st.jacbndalg = some "disable" <;>
      simp [traceShape, hp, hj, Ev.isBoundCall]
  · simp [traceShape, hp]

lemma traceShape_calc_radius (tanhFn : ℚ → ℚ) (orc : Oracle)
    (st : RecurJacState) (input : List ℚ) (label : ℕ) (norm : PNorm)
    (upper eps : ℚ) :
    traceShape (argmax (kerasForward tanhFn st.kmodel input)) label
      (RecurJacBase.calc_radius tanhFn orc st input label norm upper eps).trace := by
  by_cases hp : argmax (kerasForward tanhFn st.kmodel input) = label
  · by_cases hj : st.jacbndalg = some "disable"
    · have ht : (RecurJacBase.calc_radius tanhFn orc st input label norm upper eps).trace
          = Ev.predict :: (binary_search (binary_search_cond_gap orc st label input
              (kerasForward tanhFn st.kmodel input) norm) eps st.steps).2 := by
        rw [calc_radius_trace]
        simp [hp, hj]
      rw [ht]
      exact ⟨rfl,
        fun e he => binary_search_trace_calls _
          (cond_gap_calls orc st label input (kerasForward tanhFn st.kmodel input) norm)
          eps st.steps e he,
        fun hne => absurd hp hne⟩
    · have ht : (RecurJacBase.calc_radius tanhFn orc st input label norm upper eps).trace
          = Ev.predict :: (binary_search (binary_search_cond_jac orc st label input
              (kerasForward tanhFn st.kmodel input) norm) upper st.steps).2 := by
        rw [calc_radius_trace]
        simp [hp, hj]
      rw [ht]
      exact ⟨rfl,
        fun e he => binary_search_trace_calls _
          (cond_jac_calls orc st label input (kerasForward tanhFn st.kmodel input) norm)
          upper st.steps e he,
        fun hne => absurd hp hne⟩
  · have ht : (RecurJacBase.calc_radius tanhFn orc st input label norm upper eps).trace
        = [Ev.predict] := by
      rw [calc_radius_trace]
      simp [hp]
    rw [ht]
    exact ⟨rfl, by simp, fun _ => rfl⟩

lemma traceShape_spectral_calc_radius (tanhFn : ℚ → ℚ) (orc : Oracle)
    (st : RecurJacState) (input : List ℚ) (label : ℕ) (norm : PNorm)
    (upper eps : ℚ) :
    traceShape (argmax (kerasForward tanhFn st.kmodel input)) label
      (SpectralAdaptor.calc_radius tanhFn orc st input label norm upper eps).trace := by
  rw [spectral_calc_radius_trace]
  by_cases hp : argmax (kerasForward tanhFn st.kmodel input) = label <;>
    simp [traceShape, hp, Ev.isBoundCall]

/-- **C5**: every `verify` / `calc_radius` call follows the single
synchronous sequence: the (already converted) model predicts first, every
later event is an external bound call, those happen only when the
predicted label equals the given label, and in `RecurJacBase.calc_radius`
everything after the prediction belongs to the final binary search. -/
theorem C5_call_sequence (tanhFn : ℚ → ℚ) (orc : Oracle) (st : RecurJacState)
    (input : List ℚ) (label : ℕ) (norm : PNorm) (radius upper eps : ℚ) :
    traceShape (predLabelOf tanhFn st input) label
        (RecurJacBase.verify tanhFn orc st input label norm radius).trace
    ∧ traceShape (predLabelOf tanhFn st input) label
        (RecurJacBase.calc_radius tanhFn orc st input label norm upper eps).trace
    ∧ traceShape (predLabelOf tanhFn st input) label
        (SpectralAdaptor.verify tanhFn orc st input label norm radius).trace
    ∧ traceShape (predLabelOf tanhFn st input) label
        (SpectralAdaptor.calc_radius tanhFn orc st input label norm upper eps).trace
    ∧ (predLabelOf tanhFn st input = label → st.jacbndalg ≠ some "disable" →
        (RecurJacBase.calc_radius tanhFn orc st input label norm upper eps).trace
          = Ev.predict :: (binary_search (binary_search_cond_jac orc st label input
              (kerasForward tanhFn st.kmodel input) norm) upper st.steps).2)
    ∧ (predLabelOf tanhFn st input = label → st.jacbndalg = some "disable" →
        (RecurJacBase.calc_radius tanhFn orc st input label norm upper eps).trace
          = Ev.predict :: (binary_search (binary_search_cond_gap orc st label input
              (kerasForward tanhFn st.kmodel input) norm) eps st.steps).2) := by
  unfold predLabelOf
  refine ⟨traceShape_verify tanhFn orc st input label norm radius,
    traceShape_calc_radius tanhFn orc st input label norm upper eps,
    ?_,
    traceShape_spectral_calc_radius tanhFn orc st input label norm upper eps,
    ?_, ?_⟩
  · rw [spectral_verify_trace]
    exact traceShape_spectral_calc_radius tanhFn orc st input label norm (1/2) (1/10000)
  · intro hp hj
    rw [calc_radius_trace]
    simp [hp, hj]
  · intro hp hj
    rw [calc_radius_trace]
    simp [hp, hj]

/-- **C6**: each constructor fixes the bounding-algorithm parameters —
`fastlip` / `recurjac` / `disable`+`fastlin` / `spectral`, over the base
class's `lipsteps = 15`, `steps = 15` and activation-dependent
`layerbndalg` — and neither `verify` nor `calc_radius` ever modifies the
adaptor state. -/
theorem C6_constructor_fixes_hyperparameters :
    (∀ (a : String) (p : Option ℚ) (k : List KLayer),
      (RecurJacBase.mkState a p k).lipsteps = 15
      ∧ (RecurJacBase.mkState a p k).steps = 15
      ∧ (RecurJacBase.mkState a p k).jacbndalg = none
      ∧ (RecurJacBase.mkState a p k).layerbndalg
          = (if a = "relu" then "crown-adaptive" else "crown-general")
      ∧ (FastLipAdaptor.mkState a p k).jacbndalg = some "fastlip"
      ∧ (RecurJacAdaptor.mkState a p k).jacbndalg = some "recurjac"
      ∧ (FastLinAdaptor.mkState a p k).jacbndalg = some "disable"
      ∧ (FastLinAdaptor.mkState a p k).layerbndalg = "fastlin"
      ∧ (SpectralAdaptor.mkState a p k).layerbndalg = "spectral"
      ∧ (FastLipAdaptor.mkState a p k).layerbndalg
          = (RecurJacBase.mkState a p k).layerbndalg
      ∧ (RecurJacAdaptor.mkState a p k).layerbndalg
          = (RecurJacBase.mkState a p k).layerbndalg
      ∧ (FastLipAdaptor.mkState a p k).lipsteps = 15
      ∧ (FastLipAdaptor.mkState a p k).steps = 15
      ∧ (SpectralAdaptor.mkState a p k).lipsteps = 15
      ∧ (SpectralAdaptor.mkState a p k).steps = 15)
    ∧ (∀ (tanhFn : ℚ → ℚ) (orc : Oracle) (st : RecurJacState) (input : List ℚ)
        (label : ℕ) (norm : PNorm) (radius upper eps : ℚ),
      (RecurJacBase.verify tanhFn orc st input label norm radius).state = st
      ∧ (RecurJacBase.calc_radius tanhFn orc st input label norm upper eps).state = st
      ∧ (SpectralAdaptor.verify tanhFn orc st input label norm radius).state = st
      ∧ (SpectralAdaptor.calc_radius tanhFn orc st input label norm upper eps).state
          = st) := by
  constructor
  · intro a p k
    exact ⟨rfl, rfl, rfl, rfl, rfl, rfl, rfl, rfl, rfl, rfl, rfl, rfl, rfl, rfl, rfl⟩
  · intro tanhFn orc st input label norm radius upper eps
    exact ⟨verify_state tanhFn orc st input label norm radius,
      calc_radius_state tanhFn orc st input label norm upper eps,
      rfl,
      spectral_calc_radius_state tanhFn orc st input label norm upper eps⟩

/-- **C7** (counterexample): on a mispredicted input
(`kmodel0` predicts 0, queried label 1), `SpectralAdaptor.verify` with
radius 0 returns the boolean `True` — not `0.0` as the claim states for
every adaptor. -/
theorem C7_spectral_verify_mispredict_cex :
    (SpectralAdaptor.verify (fun x => x) oracle0 stSpec0 [1] 1 PNorm.inf 0).value
      = PyVal.bool true := by
  have h : argmax (kerasForward (fun x => x) stSpec0.kmodel [1]) ≠ 1 := by
    rw [stSpec0_kmodel, kmodel0_pred_label]
    omega
  have hcalc : SpectralAdaptor.calc_radius (fun x => x) oracle0 stSpec0 [1] 1
      PNorm.inf (1/2) (1/10000) = ⟨PyVal.float 0, [Ev.predict], stSpec0⟩ := by
    unfold SpectralAdaptor.calc_radius
    simp [h]
  unfold SpectralAdaptor.verify
  rw [hcalc]
  norm_num [PyVal.asFloat]

/-- **C7** (amended): on a mispredicted input every adaptor short-circuits
after the one prediction — no bound call, no binary search: `calc_radius`
returns `0.0` everywhere and so does the `verify` of `FastLipAdaptor`,
`RecurJacAdaptor` and `FastLinAdaptor`, while `SpectralAdaptor.verify`
returns the boolean `radius <= 0.0`. -/
theorem C7_mispredict_short_circuits (tanhFn : ℚ → ℚ) (orc : Oracle)
    (st : RecurJacState) (input : List ℚ) (label : ℕ) (norm : PNorm)
    (radius upper eps : ℚ) (h : predLabelOf tanhFn st input ≠ label) :
    RecurJacBase.verify tanhFn orc st input label norm radius
        = ⟨PyVal.float 0, [Ev.predict], st⟩
    ∧ RecurJacBase.calc_radius tanhFn orc st input label norm upper eps
        = ⟨PyVal.float 0, [Ev.predict], st⟩
    ∧ SpectralAdaptor.calc_radius tanhFn orc st input label norm upper eps
        = ⟨PyVal.float 0, [Ev.predict], st⟩
    ∧ SpectralAdaptor.verify tanhFn orc st input label norm radius
        = ⟨PyVal.bool (decide (radius ≤ 0)), [Ev.predict], st⟩ := by
  unfold predLabelOf at h
  have hcalc : SpectralAdaptor.calc_radius tanhFn orc st input label norm
      (1/2) (1/10000) = ⟨PyVal.float 0, [Ev.predict], st⟩ := by
    unfold SpectralAdaptor.calc_radius
    simp [h]
  refine ⟨?_, ?_, ?_, ?_⟩
  · unfold RecurJacBase.verify
    simp [h]
  · unfold RecurJacBase.calc_radius
    simp [h]
  · unfold SpectralAdaptor.calc_radius
    simp [h]
  · unfold SpectralAdaptor.verify
    rw [hcalc]
    rfl

/-- Witness for C7 at a concrete adaptor and mispredicted input. -/
theorem C7_mispredict_short_circuits_witness :
    RecurJacBase.verify (fun x => x) oracle0 stSpec0 [1] 1 PNorm.inf 1
      = ⟨PyVal.float 0, [Ev.predict], stSpec0⟩ :=
  (C7_mispredict_short_circuits (fun x => x) oracle0 stSpec0 [1] 1 PNorm.inf
    1 (1/2) (1/10000)
    (by unfold predLabelOf; rw [stSpec0_kmodel, kmodel0_pred_label]; omega)).1

/-- **C9**: `SpectralAdaptor.verify` returns `True` exactly when the
queried radius is at most the radius `SpectralAdaptor.calc_radius`
computes (with its default `upper=0.5`, `eps=1e-4`), for every input,
label, norm and radius. -/
theorem C9_spectral_verify_iff_radius_le_calc (tanhFn : ℚ → ℚ) (orc : Oracle)
    (st : RecurJacState) (input : List ℚ) (label : ℕ) (norm : PNorm)
    (radius : ℚ) :
    (SpectralAdaptor.verify tanhFn orc st input label norm radius).value
        = PyVal.bool true
      ↔ radius ≤ ((SpectralAdaptor.calc_radius tanhFn orc st input label norm
          (1/2) (1/10000)).value).asFloat := by
  unfold SpectralAdaptor.verify
  simp

end VeriGauge
